import Mathlib

/-!
# exekis/sip: `environments/go-project/main.go`

A shallow embedding of the Go program

```go
func main() {
    fmt.Println("hello from go test project")
    fmt.Println("gin and mux imported successfully")

    // placeholder usage to avoid import warnings
    _ = gin.Default
    _ = mux.NewRouter
}
```

whose packages are `fmt`, `github.com/gin-gonic/gin` and `github.com/gorilla/mux`
(lines 3-7 of the file).

Go statements become computations in a state-passing monad `Go` over an explicit
process state `Proc`.  The descriptor behind standard output is a device whose
reaction to each write is arbitrary (`Stream.behave`): it may accept the write,
fail it with an error that is returned to the caller, or turn out to be a pipe
whose reader is gone, in which case Go raises SIGPIPE and the write never
returns.  The two library functions that `main` mentions but never calls are
parameters of `main`.  Package initialisation of the imported `gin`, which runs
before `main` is entered, is part of `program`.

Statements about `run (main ..)` speak of the process from the moment `main` is
entered; statements about `run (program ..)` speak of the whole process.

Writes are counted in characters; every payload of `main` is ASCII, where
characters and bytes coincide.
-/

namespace GoProject

/-! ## Process state -/

/-- Errors a write on a file descriptor can hand back to its caller. -/
inductive WriteError where
  | EBADF
  | ENOSPC
  | EFBIG
  deriving DecidableEq, Repr

/-- Reaction of the descriptor to one write: `accept` takes the whole payload and
reports no error; `reject n e` takes at most the first `n` characters and
reports the error `e`; `brokenPipe n` takes at most the first `n` characters
and then fails with EPIPE because the reading end of the pipe is closed. -/
inductive WriteOutcome where
  | accept
  | reject (n : Nat) (e : WriteError)
  | brokenPipe (n : Nat)
  deriving DecidableEq, Repr

/-- Whether a write on standard output with this reaction returns to its caller.
On EPIPE on descriptor 1 the Go runtime raises SIGPIPE instead of returning. -/
def WriteOutcome.returns : WriteOutcome → Bool
  | .accept => true
  | .reject _ _ => true
  | .brokenPipe _ => false

/-- An output stream: the characters that reached it so far, the record of every
write call made on it (payload offered and the device's reaction, in call order),
and the device behaviour, which may depend on how many writes came before and on
the payload. -/
structure Stream where
  content : List Char
  log : List (String × WriteOutcome)
  behave : Nat → String → WriteOutcome

/-- The part of the operating-system process a Go program can observe or affect:
its inputs (arguments, environment, files), its two output streams, the mode
variable of package `gin`, and the web resources the imported libraries would
create if they were used. -/
structure Proc where
  args : List String
  env : List (String × String)
  files : List (String × String)
  stdout : Stream
  stderr : List Char
  ginMode : String
  engines : Nat
  routers : Nat
  routes : List (String × String)
  listeners : List Nat

/-- A `*gin.Engine` handle. -/
structure Engine where
  id : Nat
  deriving DecidableEq, Repr

/-- A `*mux.Router` handle. -/
structure Router where
  id : Nat
  deriving DecidableEq, Repr

/-! ## Computations -/

/-- How a Go function call ends: a normal return, an unrecovered panic, a call
to `os.Exit`, or the death of the process by a signal. Each carries the process
state reached. -/
inductive Result (α : Type) where
  | returned (a : α) (s : Proc)
  | panicked (msg : String) (s : Proc)
  | exited (code : Nat) (s : Proc)
  | killed (sig : Nat) (s : Proc)

/-- The process state in which a call ended. -/
def Result.state {α : Type} : Result α → Proc
  | .returned _ s => s
  | .panicked _ s => s
  | .exited _ s => s
  | .killed _ s => s

/-- A Go computation: a function of the process state. -/
def Go (α : Type) : Type := Proc → Result α

/-- Return a value without touching the state. -/
def Go.pure {α : Type} (a : α) : Go α := fun s => .returned a s

/-- Sequencing of statements: the second runs only if the first returned; a
panic, an exit or a fatal signal ends the sequence. -/
def Go.bind {α β : Type} (x : Go α) (f : α → Go β) : Go β := fun s =>
  match x s with
  | .returned a s' => f a s'
  | .panicked msg s' => .panicked msg s'
  | .exited c s' => .exited c s'
  | .killed sig s' => .killed sig s'

instance : Monad Go where
  pure := Go.pure
  bind := Go.bind

/-! ## Library functions -/

/-- The signal number of SIGPIPE. -/
def SIGPIPE : Nat := 13

/-- One `Write` call on the stream behind `os.Stdout`, `(*os.File).Write`: the
device decides, the accepted characters are appended to the content and the call
is recorded. The caller gets `some (n, err)`; on EPIPE the runtime raises SIGPIPE
and nothing is returned (`none`). -/
def Stream.write (f : Stream) (p : String) : Stream × Option (Nat × Option WriteError) :=
  match f.behave f.log.length p with
  | .accept =>
      ({ f with content := f.content ++ p.toList, log := f.log ++ [(p, .accept)] },
        some (p.length, none))
  | .reject n e =>
      ({ f with content := f.content ++ p.toList.take n, log := f.log ++ [(p, .reject n e)] },
        some (min n p.length, some e))
  | .brokenPipe n =>
      ({ f with content := f.content ++ p.toList.take n, log := f.log ++ [(p, .brokenPipe n)] },
        none)

/-- A stream that accepts every write. -/
def Stream.Writable (f : Stream) : Prop := ∀ k p, f.behave k p = .accept

namespace os

/-- The function `os.Getenv`: the value of the first entry for `key`, or the
empty string when there is none. -/
def Getenv (key : String) (s : Proc) : String := (s.env.lookup key).getD ""

end os

namespace fmt

/-- The function `fmt.Println(a ...any) (n int, err error)` on string operands:
the operands separated by spaces, then a newline, in a single write to
`os.Stdout`; returns the count written and any write error. When the write
meets a closed pipe the process dies of SIGPIPE inside the call. -/
def Println (a : List String) : Go (Nat × Option WriteError) := fun s =>
  let r := s.stdout.write (" ".intercalate a ++ "\n")
  match r.2 with
  | some v => .returned v { s with stdout := r.1 }
  | none => .killed SIGPIPE { s with stdout := r.1 }

end fmt

namespace gin

/-- The modes `gin.SetMode` knows. -/
def modes : List String := ["debug", "release", "test"]

/-- The function `gin.SetMode`: the empty string stands for debug mode, a known
mode is stored, any other value is a panic. -/
def SetMode (value : String) : Go Unit := fun s =>
  let value := if value = "" then "debug" else value
  if value ∈ modes then .returned () { s with ginMode := value }
  else .panicked ("gin mode unknown: " ++ value ++ " (available mode: debug release test)") s

/-- Package initialisation of `gin` (its `func init()`): reads the environment
variable GIN_MODE and sets the mode from it. -/
def init : Go Unit := fun s => SetMode (os.Getenv "GIN_MODE" s) s

/-- Stand-in for `gin.Default()`: builds an engine, and in debug mode announces
it on standard output. -/
def Default : Go Engine := fun s =>
  if s.ginMode = "debug" then
    let r := s.stdout.write "[GIN-debug] [WARNING] Creating an Engine instance with the Logger and Recovery middleware already attached.\n"
    match r.2 with
    | some _ => .returned ⟨s.engines⟩ { s with stdout := r.1, engines := s.engines + 1 }
    | none => .killed SIGPIPE { s with stdout := r.1 }
  else .returned ⟨s.engines⟩ { s with engines := s.engines + 1 }

end gin

namespace mux

/-- Stand-in for `mux.NewRouter()`: builds a router. -/
def NewRouter : Go Router := fun s =>
  .returned ⟨s.routers⟩ { s with routers := s.routers + 1 }

end mux

/-! ## The program -/

/-- The function `main` of `main.go`. `gin_Default` and `mux_NewRouter` are the
function values `gin.Default` and `mux.NewRouter` of the imported packages. -/
def main (gin_Default : Go Engine) (mux_NewRouter : Go Router) : Go Unit := do
  let _ ← fmt.Println ["hello from go test project"]
  let _ ← fmt.Println ["gin and mux imported successfully"]
  -- placeholder usage to avoid import warnings
  let _ := gin_Default
  let _ := mux_NewRouter
  pure ()

/-- The whole program of `main.go` as a process executes it: the import block
(lines 3-7) makes the initialisation of `gin` run before `main` is entered.
`startup` stands for everything else that happens before it (start-up of the Go
runtime, initialisation of the other packages). -/
def program (startup : Go Unit) (gin_Default : Go Engine) (mux_NewRouter : Go Router) :
    Go Unit := do
  startup
  gin.init
  main gin_Default mux_NewRouter

/-- The end of the process: a normal return of the code gives status 0, an
unrecovered panic reports on standard error and gives status 2, `os.Exit(c)`
gives status `c`, and death by signal `sig` gives 128 + `sig`, the status a
shell reports for it. Gives the final process state and the exit status. -/
def run (code : Go Unit) (s : Proc) : Proc × Nat :=
  match code s with
  | .returned _ s' => (s', 0)
  | .panicked msg s' => ({ s' with stderr := s'.stderr ++ ("panic: " ++ msg ++ "\n").toList }, 2)
  | .exited c s' => (s', c)
  | .killed sig s' => (s', 128 + sig)

/-! ## Observations -/

/-- The text a run started in `s` appended to standard output. -/
def stdoutText (code : Go Unit) (s : Proc) : List Char :=
  (run code s).1.stdout.content.drop s.stdout.content.length

/-- The write calls a run started in `s` made on standard output, in order, each
with the device's reaction. -/
def stdoutWrites (code : Go Unit) (s : Proc) : List (String × WriteOutcome) :=
  (run code s).1.stdout.log.drop s.stdout.log.length

/-! ## Concrete processes -/

/-- A fresh process whose standard output reacts as `b`. -/
def freshProc (b : Nat → String → WriteOutcome) : Proc :=
  { args := ["go-project"], env := [], files := [],
    stdout := { content := [], log := [], behave := b },
    stderr := [], ginMode := "debug",
    engines := 0, routers := 0, routes := [], listeners := [] }

/-- Standard output connected to a terminal: every write is accepted. -/
def ttyProc : Proc := freshProc (fun _ _ => .accept)

/-- Standard output redirected to the always-full device (`./prog > /dev/full`):
every write fails with ENOSPC and nothing is written. -/
def devFullProc : Proc := freshProc (fun _ _ => .reject 0 .ENOSPC)

/-- Standard output on a disk that fills up: the first write goes through, each
later one stops after five characters with ENOSPC. -/
def fullProc : Proc :=
  freshProc (fun k _ => if k = 0 then .accept else .reject 5 .ENOSPC)

/-- Standard output piped into a reader that has already gone (`./prog | true`):
every write meets a closed pipe. -/
def closedPipeProc : Proc := freshProc (fun _ _ => .brokenPipe 0)

/-- Standard output on a file that reaches its size limit: the second write
returns EFBIG after three characters. -/
def limitedFileProc : Proc :=
  freshProc (fun k _ => if k = 1 then .reject 3 .EFBIG else .accept)

/-- Standard output appended to a log that already holds a line
(`./prog >> out.log`): every write is accepted. -/
def loggedProc : Proc :=
  { args := ["go-project", "--verbose"], env := [("GIN_MODE", "release")], files := [],
    stdout := { content := "earlier\n".toList, log := [("earlier\n", .accept)],
                behave := fun _ _ => .accept },
    stderr := [], ginMode := "debug",
    engines := 0, routers := 0, routes := [], listeners := [] }

/-- A process on a terminal started with `GIN_MODE=bogus`. -/
def bogusModeProc : Proc := { ttyProc with env := [("GIN_MODE", "bogus")] }

/-- A process on a terminal started with other arguments and `GIN_MODE=release`. -/
def releaseModeProc : Proc :=
  { ttyProc with args := ["go-project", "--port", "8080"],
                 env := [("HOME", "/root"), ("GIN_MODE", "release")],
                 files := [("config.yaml", "port: 8080")] }

/-! ## Lemmas on writes -/

/-- A write records exactly one call: the payload with the device's reaction. -/
theorem Stream.write_log (f : Stream) (p : String) :
    (f.write p).1.log = f.log ++ [(p, f.behave f.log.length p)] := by
  unfold Stream.write
  cases h : f.behave f.log.length p <;> simp

/-- A write leaves the device behaviour as it was. -/
theorem Stream.write_behave (f : Stream) (p : String) : (f.write p).1.behave = f.behave := by
  unfold Stream.write
  cases h : f.behave f.log.length p <;> simp

/-- An accepted write appends the whole payload. -/
theorem Stream.write_content_of_accept (f : Stream) (p : String)
    (h : f.behave f.log.length p = .accept) :
    (f.write p).1.content = f.content ++ p.toList := by
  unfold Stream.write
  rw [h]

/-- Writability survives a write. -/
theorem Stream.write_writable (f : Stream) (p : String) (h : f.Writable) :
    (f.write p).1.Writable := by
  intro k q
  rw [Stream.write_behave]
  exact h k q

/-- A write returns to its caller exactly when the device's reaction does. -/
theorem Stream.write_isSome (f : Stream) (p : String) :
    (f.write p).2.isSome = (f.behave f.log.length p).returns := by
  unfold Stream.write
  cases h : f.behave f.log.length p <;> rfl

/-- The device's reaction to a second write, seen from the initial stream. -/
theorem Stream.write_behave_next (f : Stream) (p q : String) :
    (f.write p).1.behave (f.write p).1.log.length q = f.behave (f.log.length + 1) q := by
  rw [Stream.write_behave, Stream.write_log]
  simp

/-- A `fmt.Println` whose write returns hands a result back and leaves the
process in the state after the write. -/
theorem println_of_returns (a : List String) (s : Proc)
    (h : (s.stdout.behave s.stdout.log.length (" ".intercalate a ++ "\n")).returns = true) :
    ∃ v, fmt.Println a s =
      .returned v { s with stdout := (s.stdout.write (" ".intercalate a ++ "\n")).1 } := by
  have hs := Stream.write_isSome s.stdout (" ".intercalate a ++ "\n")
  rw [h] at hs
  obtain ⟨v, hv⟩ := Option.isSome_iff_exists.mp hs
  refine ⟨v, ?_⟩
  unfold fmt.Println
  simp only [hv]

/-- A `fmt.Println` whose write meets a closed pipe ends the process by SIGPIPE. -/
theorem println_of_brokenPipe (a : List String) (s : Proc)
    (h : (s.stdout.behave s.stdout.log.length (" ".intercalate a ++ "\n")).returns = false) :
    fmt.Println a s =
      .killed SIGPIPE { s with stdout := (s.stdout.write (" ".intercalate a ++ "\n")).1 } := by
  have hs := Stream.write_isSome s.stdout (" ".intercalate a ++ "\n")
  rw [h] at hs
  have hn : (s.stdout.write (" ".intercalate a ++ "\n")).2 = none := by
    cases hv : (s.stdout.write (" ".intercalate a ++ "\n")).2 with
    | none => rfl
    | some v => rw [hv] at hs; cases hs
  unfold fmt.Println
  simp only [hn]

/-! ## Lemmas on `main` -/

/-- The statements of `main` in sequence. -/
theorem main_unfold (g : Go Engine) (m : Go Router) :
    main g m = Go.bind (fmt.Println ["hello from go test project"]) (fun _ =>
      Go.bind (fmt.Println ["gin and mux imported successfully"]) (fun _ => Go.pure ())) := rfl

/-- When both writes return, `main` returns in the state reached by the two
writes on standard output. -/
theorem main_of_returns (g : Go Engine) (m : Go Router) (s : Proc)
    (h1 : (s.stdout.behave s.stdout.log.length "hello from go test project\n").returns = true)
    (h2 : (s.stdout.behave (s.stdout.log.length + 1)
            "gin and mux imported successfully\n").returns = true) :
    main g m s = .returned ()
      { s with stdout := ((s.stdout.write "hello from go test project\n").1.write
                  "gin and mux imported successfully\n").1 } := by
  obtain ⟨v1, e1⟩ := println_of_returns ["hello from go test project"] s h1
  obtain ⟨v2, e2⟩ := println_of_returns ["gin and mux imported successfully"]
    { s with stdout := (s.stdout.write (" ".intercalate ["hello from go test project"] ++ "\n")).1 }
    (by rw [← Stream.write_behave_next] at h2; exact h2)
  rw [main_unfold]
  unfold Go.bind
  simp only [e1]
  simp only [e2]
  rfl

/-- When the first write meets a closed pipe, the process dies there: the
second write is not made. -/
theorem main_of_brokenPipe_first (g : Go Engine) (m : Go Router) (s : Proc)
    (h1 : (s.stdout.behave s.stdout.log.length "hello from go test project\n").returns = false) :
    main g m s = .killed SIGPIPE
      { s with stdout := (s.stdout.write "hello from go test project\n").1 } := by
  have e1 := println_of_brokenPipe ["hello from go test project"] s h1
  rw [main_unfold]
  unfold Go.bind
  simp only [e1]
  rfl

/-- When the first write returns and the second meets a closed pipe, the
process dies in the second write. -/
theorem main_of_brokenPipe_second (g : Go Engine) (m : Go Router) (s : Proc)
    (h1 : (s.stdout.behave s.stdout.log.length "hello from go test project\n").returns = true)
    (h2 : (s.stdout.behave (s.stdout.log.length + 1)
            "gin and mux imported successfully\n").returns = false) :
    main g m s = .killed SIGPIPE
      { s with stdout := ((s.stdout.write "hello from go test project\n").1.write
                  "gin and mux imported successfully\n").1 } := by
  obtain ⟨v1, e1⟩ := println_of_returns ["hello from go test project"] s h1
  have e2 := println_of_brokenPipe ["gin and mux imported successfully"]
    { s with stdout := (s.stdout.write (" ".intercalate ["hello from go test project"] ++ "\n")).1 }
    (by rw [← Stream.write_behave_next] at h2; exact h2)
  rw [main_unfold]
  unfold Go.bind
  simp only [e1]
  simp only [e2]
  rfl

/-- The three ways `main` can go, by the device's reactions to its writes. -/
theorem main_cases (g : Go Engine) (m : Go Router) (s : Proc) :
    ((s.stdout.behave s.stdout.log.length "hello from go test project\n").returns = true
        ∧ (s.stdout.behave (s.stdout.log.length + 1)
            "gin and mux imported successfully\n").returns = true
        ∧ main g m s = .returned ()
            { s with stdout := ((s.stdout.write "hello from go test project\n").1.write
                        "gin and mux imported successfully\n").1 })
      ∨ ((s.stdout.behave s.stdout.log.length "hello from go test project\n").returns = true
        ∧ (s.stdout.behave (s.stdout.log.length + 1)
            "gin and mux imported successfully\n").returns = false
        ∧ main g m s = .killed SIGPIPE
            { s with stdout := ((s.stdout.write "hello from go test project\n").1.write
                        "gin and mux imported successfully\n").1 })
      ∨ ((s.stdout.behave s.stdout.log.length "hello from go test project\n").returns = false
        ∧ main g m s = .killed SIGPIPE
            { s with stdout := (s.stdout.write "hello from go test project\n").1 }) := by
  cases h1 : (s.stdout.behave s.stdout.log.length "hello from go test project\n").returns
  · exact Or.inr (Or.inr ⟨rfl, main_of_brokenPipe_first g m s h1⟩)
  · cases h2 : (s.stdout.behave (s.stdout.log.length + 1)
        "gin and mux imported successfully\n").returns
    · exact Or.inr (Or.inl ⟨rfl, rfl, main_of_brokenPipe_second g m s h1 h2⟩)
    · exact Or.inl ⟨rfl, rfl, main_of_returns g m s h1 h2⟩

/-- The final state of a run of `main`: the initial state with one or two writes
applied to standard output, the second exactly when the first returned. -/
theorem run_main_state (g : Go Engine) (m : Go Router) (s : Proc) :
    (run (main g m) s).1 = { s with stdout :=
      if (s.stdout.behave s.stdout.log.length "hello from go test project\n").returns = true
      then ((s.stdout.write "hello from go test project\n").1.write
              "gin and mux imported successfully\n").1
      else (s.stdout.write "hello from go test project\n").1 } := by
  unfold run
  rcases main_cases g m s with ⟨h1, _, h⟩ | ⟨h1, _, h⟩ | ⟨h1, h⟩ <;> rw [h] <;> simp [h1]

/-- The exit status of a run of `main`: 0 when both writes return, the SIGPIPE
status otherwise. -/
theorem run_main_status (g : Go Engine) (m : Go Router) (s : Proc) :
    (run (main g m) s).2 =
      if (s.stdout.behave s.stdout.log.length "hello from go test project\n").returns = true
          ∧ (s.stdout.behave (s.stdout.log.length + 1)
              "gin and mux imported successfully\n").returns = true
      then 0 else 128 + SIGPIPE := by
  unfold run
  rcases main_cases g m s with ⟨h1, h2, h⟩ | ⟨h1, h2, h⟩ | ⟨h1, h⟩
  · rw [h]; simp [h1, h2]
  · rw [h]; simp [h1, h2]
  · rw [h]; simp [h1]

/-- The write calls of `main`, for any device. -/
theorem stdoutWrites_main (g : Go Engine) (m : Go Router) (s : Proc) :
    stdoutWrites (main g m) s =
      if (s.stdout.behave s.stdout.log.length "hello from go test project\n").returns = true
      then [("hello from go test project\n",
              s.stdout.behave s.stdout.log.length "hello from go test project\n"),
            ("gin and mux imported successfully\n",
              s.stdout.behave (s.stdout.log.length + 1) "gin and mux imported successfully\n")]
      else [("hello from go test project\n",
              s.stdout.behave s.stdout.log.length "hello from go test project\n")] := by
  unfold stdoutWrites
  rw [run_main_state]
  cases h1 : (s.stdout.behave s.stdout.log.length "hello from go test project\n").returns <;>
    simp [Stream.write_log, Stream.write_behave]

/-- A run of `main` leaves the device behaviour as it was. -/
theorem run_main_behave (g : Go Engine) (m : Go Router) (s : Proc) :
    (run (main g m) s).1.stdout.behave = s.stdout.behave := by
  rw [run_main_state]
  cases h1 : (s.stdout.behave s.stdout.log.length "hello from go test project\n").returns <;>
    simp [Stream.write_behave]

/-- On a writable standard output `main` appends its two lines. -/
theorem main_content_of_writable (g : Go Engine) (m : Go Router) (s : Proc)
    (hw : s.stdout.Writable) :
    (run (main g m) s).1.stdout.content = s.stdout.content ++
      "hello from go test project\ngin and mux imported successfully\n".toList := by
  rw [run_main_state]
  have h1 := Stream.write_content_of_accept s.stdout "hello from go test project\n" (hw _ _)
  have h2 := Stream.write_content_of_accept (s.stdout.write "hello from go test project\n").1
    "gin and mux imported successfully\n" (Stream.write_writable _ _ hw _ _)
  have hr : (s.stdout.behave s.stdout.log.length "hello from go test project\n").returns = true := by
    rw [hw]; rfl
  simp only [hr, if_true]
  rw [h2, h1, List.append_assoc]
  rfl

/-- What a run of `main` does is determined by the standard-output stream it
starts with. -/
theorem main_depends_on_stdout_only (g : Go Engine) (m : Go Router) (s t : Proc)
    (h : s.stdout = t.stdout) :
    stdoutText (main g m) s = stdoutText (main g m) t
      ∧ stdoutWrites (main g m) s = stdoutWrites (main g m) t
      ∧ (run (main g m) s).2 = (run (main g m) t).2 := by
  unfold stdoutText stdoutWrites
  rw [run_main_state, run_main_state, run_main_status, run_main_status]
  simp only [h]
  exact ⟨trivial, trivial, trivial⟩

/-- Running code that behaves in `s` as other code does in `t`. -/
theorem run_congr (c c' : Go Unit) (s t : Proc) (h : c s = c' t) : run c s = run c' t := by
  unfold run
  rw [h]

/-- With GIN_MODE unset, empty or a known mode, the initialisation of `gin`
returns and touches nothing but the mode variable. -/
theorem gin_init_of_known (s : Proc)
    (hm : os.Getenv "GIN_MODE" s ∈ ["", "debug", "release", "test"]) :
    ∃ v, gin.init s = .returned () { s with ginMode := v } := by
  unfold gin.init gin.SetMode
  simp only [List.mem_cons, List.mem_singleton, List.not_mem_nil, or_false] at hm
  rcases hm with h | h | h | h <;> rw [h] <;> exact ⟨_, rfl⟩

/-- When start-up completes and GIN_MODE is acceptable, the program is `main`
entered with some mode set. -/
theorem program_of_known (startup : Go Unit) (g : Go Engine) (m : Go Router) (s : Proc)
    (hst : startup s = .returned () s)
    (hm : os.Getenv "GIN_MODE" s ∈ ["", "debug", "release", "test"]) :
    ∃ v, program startup g m s = main g m { s with ginMode := v } := by
  obtain ⟨v, hv⟩ := gin_init_of_known s hm
  refine ⟨v, ?_⟩
  show Go.bind startup (fun _ => Go.bind gin.init (fun _ => main g m)) s = _
  unfold Go.bind
  simp only [hst]
  simp only [hv]

/-- The stand-in for `gin.Default` is not a no-op: calling it builds an engine
and writes to standard output. -/
theorem gin_Default_has_effect :
    (gin.Default ttyProc).state.engines = 1 ∧ (gin.Default ttyProc).state.stdout.log.length = 1 := by
  decide

/-- The stand-in for `mux.NewRouter` is not a no-op: calling it builds a router. -/
theorem mux_NewRouter_has_effect : (mux.NewRouter ttyProc).state.routers = 1 := by
  decide

/-- On a pipe whose reader is gone the process running `main` dies of SIGPIPE in
its first write, with nothing written. -/
theorem main_on_closed_pipe :
    (run (main gin.Default mux.NewRouter) closedPipeProc).2 = 141
      ∧ stdoutText (main gin.Default mux.NewRouter) closedPipeProc = [] := by
  decide

/-! ## The claims -/

/-- C1. Running `main` with a standard output that accepts every write appends
to standard output exactly the text
"hello from go test project\ngin and mux imported successfully\n" (two
newline-terminated lines, in that order, nothing before, between or after them)
and writes nothing to standard error. -/
theorem main_writes_exact_text (g : Go Engine) (m : Go Router) (s : Proc)
    (hw : s.stdout.Writable) :
    (run (main g m) s).1.stdout.content = s.stdout.content ++
        "hello from go test project\ngin and mux imported successfully\n".toList
      ∧ stdoutText (main g m) s =
        ("hello from go test project" ++ "\n" ++ "gin and mux imported successfully" ++ "\n").toList
      ∧ (run (main g m) s).1.stderr = s.stderr := by
  refine ⟨main_content_of_writable g m s hw, ?_, ?_⟩
  · unfold stdoutText
    rw [main_content_of_writable g m s hw, List.drop_left]
    rfl
  · rw [run_main_state]

/-- Witness for C1: a fresh process on a terminal. -/
theorem main_writes_exact_text_witness :
    ttyProc.stdout.Writable
      ∧ ((run (main gin.Default mux.NewRouter) ttyProc).1.stdout.content = ttyProc.stdout.content ++
          "hello from go test project\ngin and mux imported successfully\n".toList
        ∧ stdoutText (main gin.Default mux.NewRouter) ttyProc =
          ("hello from go test project" ++ "\n" ++ "gin and mux imported successfully" ++ "\n").toList
        ∧ (run (main gin.Default mux.NewRouter) ttyProc).1.stderr = ttyProc.stderr) :=
  ⟨fun _ _ => rfl, main_writes_exact_text gin.Default mux.NewRouter ttyProc (fun _ _ => rfl)⟩

/-- C2 as stated fails: with standard output on the always-full device, the first
`fmt.Println` of `main` returns the error ENOSPC, every write made by `main` is
rejected, and the process still ends with exit status 0. -/
theorem stdout_error_exit_status_counterexample :
    (∃ s', fmt.Println ["hello from go test project"] devFullProc = .returned (0, some .ENOSPC) s')
      ∧ (∃ w ∈ stdoutWrites (main gin.Default mux.NewRouter) devFullProc, w.2 ≠ .accept)
      ∧ (run (main gin.Default mux.NewRouter) devFullProc).2 = 0
      ∧ ¬ ((∃ w ∈ stdoutWrites (main gin.Default mux.NewRouter) devFullProc, w.2 ≠ .accept) →
            (run (main gin.Default mux.NewRouter) devFullProc).2 ≠ 0) := by
  refine ⟨⟨_, rfl⟩, by decide, rfl, ?_⟩
  intro h
  exact h (by decide) rfl

/-- C2, amended. If a write to standard output made by `main` fails, then either
a write met a closed pipe, in which case Go raises SIGPIPE and the process
ends with the non-zero status 141 without `main` returning; or every failing
write returned its error to `main`, in which case `main` discards the error and
returns normally and the process ends with exit status 0. -/
theorem main_exit_status_on_write_error (g : Go Engine) (m : Go Router) (s : Proc)
    (herr : ∃ w ∈ stdoutWrites (main g m) s, w.2 ≠ .accept) :
    ((∃ w ∈ stdoutWrites (main g m) s, ∃ n, w.2 = .brokenPipe n)
        ∧ (∃ s', main g m s = .killed SIGPIPE s')
        ∧ (run (main g m) s).2 = 141)
      ∨ ((∀ w ∈ stdoutWrites (main g m) s, w.2.returns = true)
        ∧ (∃ w ∈ stdoutWrites (main g m) s, ∃ n e, w.2 = .reject n e)
        ∧ (∃ s', main g m s = .returned () s')
        ∧ (run (main g m) s).2 = 0) := by
  have hW := stdoutWrites_main g m s
  have hS := run_main_status g m s
  rcases main_cases g m s with ⟨h1, h2, h⟩ | ⟨h1, h2, h⟩ | ⟨h1, h⟩
  · right
    have hall : ∀ w ∈ stdoutWrites (main g m) s, w.2.returns = true := by
      intro w hw
      rw [hW, if_pos h1] at hw
      simp only [List.mem_cons, List.mem_singleton, List.not_mem_nil, or_false] at hw
      rcases hw with rfl | rfl
      · exact h1
      · exact h2
    refine ⟨hall, ?_, ⟨_, h⟩, by rw [hS]; simp [h1, h2]⟩
    obtain ⟨w, hmem, hne⟩ := herr
    refine ⟨w, hmem, ?_⟩
    have hr := hall w hmem
    cases hw : w.2 with
    | accept => exact absurd hw hne
    | reject n e => exact ⟨n, e, rfl⟩
    | brokenPipe n => rw [hw] at hr; cases hr
  · left
    refine ⟨⟨_, by rw [hW, if_pos h1]; exact List.mem_cons_of_mem _ (List.mem_cons_self _ _), ?_⟩,
      ⟨_, h⟩, by rw [hS]; simp [h1, h2, SIGPIPE]⟩
    cases ho : s.stdout.behave (s.stdout.log.length + 1) "gin and mux imported successfully\n" with
    | accept => rw [ho] at h2; cases h2
    | reject n e => rw [ho] at h2; cases h2
    | brokenPipe n => exact ⟨n, rfl⟩
  · left
    refine ⟨⟨_, by rw [hW, if_neg (by simp [h1])]; exact List.mem_cons_self _ _, ?_⟩,
      ⟨_, h⟩, by rw [hS]; simp [h1, SIGPIPE]⟩
    cases ho : s.stdout.behave s.stdout.log.length "hello from go test project\n" with
    | accept => rw [ho] at h1; cases h1
    | reject n e => rw [ho] at h1; cases h1
    | brokenPipe n => exact ⟨n, rfl⟩

/-- Witness for the amended C2: a disk that fills up after the first line. -/
theorem main_exit_status_on_write_error_witness :
    (∃ w ∈ stdoutWrites (main gin.Default mux.NewRouter) fullProc, w.2 ≠ .accept)
      ∧ (((∃ w ∈ stdoutWrites (main gin.Default mux.NewRouter) fullProc, ∃ n, w.2 = .brokenPipe n)
          ∧ (∃ s', main gin.Default mux.NewRouter fullProc = .killed SIGPIPE s')
          ∧ (run (main gin.Default mux.NewRouter) fullProc).2 = 141)
        ∨ ((∀ w ∈ stdoutWrites (main gin.Default mux.NewRouter) fullProc, w.2.returns = true)
          ∧ (∃ w ∈ stdoutWrites (main gin.Default mux.NewRouter) fullProc,
                ∃ n e, w.2 = .reject n e)
          ∧ (∃ s', main gin.Default mux.NewRouter fullProc = .returned () s')
          ∧ (run (main gin.Default mux.NewRouter) fullProc).2 = 0)) :=
  ⟨by decide, main_exit_status_on_write_error gin.Default mux.NewRouter fullProc (by decide)⟩

/-- C3. On a successful run (both writes to standard output succeed) `main`
makes its two writes and then returns normally: it neither panics nor calls an
exit routine nor dies of a signal, and the process exit code is 0. -/
theorem main_returns_normally_on_success (g : Go Engine) (m : Go Router) (s : Proc)
    (hok : ∀ w ∈ stdoutWrites (main g m) s, w.2 = .accept) :
    (stdoutWrites (main g m) s).length = 2
      ∧ stdoutText (main g m) s =
          "hello from go test project\ngin and mux imported successfully\n".toList
      ∧ (∃ s', main g m s = .returned () s')
      ∧ (∀ msg s', main g m s ≠ .panicked msg s')
      ∧ (∀ c s', main g m s ≠ .exited c s')
      ∧ (∀ sig s', main g m s ≠ .killed sig s')
      ∧ (run (main g m) s).2 = 0 := by
  have hlog := stdoutWrites_main g m s
  rw [hlog] at hok
  have h1 : s.stdout.behave s.stdout.log.length "hello from go test project\n" = .accept := by
    by_cases hr : (s.stdout.behave s.stdout.log.length "hello from go test project\n").returns = true
    · rw [if_pos hr] at hok
      exact hok (_, _) (List.mem_cons_self _ _)
    · rw [if_neg hr] at hok
      exact hok (_, _) (List.mem_cons_self _ _)
  have hr1 : (s.stdout.behave s.stdout.log.length "hello from go test project\n").returns = true := by
    rw [h1]; rfl
  rw [if_pos hr1] at hok
  have h2 : s.stdout.behave (s.stdout.log.length + 1) "gin and mux imported successfully\n"
      = .accept := hok (_, _) (List.mem_cons_of_mem _ (List.mem_cons_self _ _))
  have hr2 : (s.stdout.behave (s.stdout.log.length + 1)
      "gin and mux imported successfully\n").returns = true := by
    rw [h2]; rfl
  have hmain := main_of_returns g m s hr1 hr2
  refine ⟨by rw [hlog, if_pos hr1]; rfl, ?_, ⟨_, hmain⟩, ?_, ?_, ?_, ?_⟩
  · unfold stdoutText
    rw [run_main_state]
    have e1 := Stream.write_content_of_accept s.stdout "hello from go test project\n" h1
    have e2 := Stream.write_content_of_accept (s.stdout.write "hello from go test project\n").1
      "gin and mux imported successfully\n"
      (by rw [Stream.write_behave_next]; exact h2)
    simp only [hr1, if_true]
    rw [e2, e1, List.append_assoc, List.drop_left]
    rfl
  · intro msg s' h
    rw [hmain] at h
    cases h
  · intro c s' h
    rw [hmain] at h
    cases h
  · intro sig s' h
    rw [hmain] at h
    cases h
  · rw [run_main_status]
    simp [hr1, hr2]

/-- Witness for C3: a fresh process on a terminal. -/
theorem main_returns_normally_on_success_witness :
    (∀ w ∈ stdoutWrites (main gin.Default mux.NewRouter) ttyProc, w.2 = .accept)
      ∧ ((stdoutWrites (main gin.Default mux.NewRouter) ttyProc).length = 2
        ∧ stdoutText (main gin.Default mux.NewRouter) ttyProc =
            "hello from go test project\ngin and mux imported successfully\n".toList
        ∧ (∃ s', main gin.Default mux.NewRouter ttyProc = .returned () s')
        ∧ (∀ msg s', main gin.Default mux.NewRouter ttyProc ≠ .panicked msg s')
        ∧ (∀ c s', main gin.Default mux.NewRouter ttyProc ≠ .exited c s')
        ∧ (∀ sig s', main gin.Default mux.NewRouter ttyProc ≠ .killed sig s')
        ∧ (run (main gin.Default mux.NewRouter) ttyProc).2 = 0) :=
  ⟨by decide, main_returns_normally_on_success gin.Default mux.NewRouter ttyProc (by decide)⟩

/-- C4. The output of `main` is deterministic and carries no hidden state: two
runs, each started with a writable standard output, write identical text; the
state left by a run is again writable, and running `main` again from it writes
the same text as the first run. -/
theorem main_output_deterministic (g g' : Go Engine) (m m' : Go Router) (s s' : Proc)
    (hs : s.stdout.Writable) (hs' : s'.stdout.Writable) :
    stdoutText (main g m) s = stdoutText (main g' m') s'
      ∧ (run (main g m) s).1.stdout.Writable
      ∧ stdoutText (main g' m') (run (main g m) s).1 = stdoutText (main g m) s := by
  have key : ∀ (a : Go Engine) (b : Go Router) (t : Proc), t.stdout.Writable →
      stdoutText (main a b) t =
        "hello from go test project\ngin and mux imported successfully\n".toList := by
    intro a b t ht
    unfold stdoutText
    rw [main_content_of_writable a b t ht, List.drop_left]
  have hw : (run (main g m) s).1.stdout.Writable := by
    intro k p
    rw [run_main_behave]
    exact hs k p
  exact ⟨by rw [key g m s hs, key g' m' s' hs'], hw, by rw [key g' m' _ hw, key g m s hs]⟩

/-- Witness for C4: one run on a terminal, one appending to a log that already
holds a line, started with other arguments and another environment. -/
theorem main_output_deterministic_witness :
    ttyProc.stdout.Writable ∧ loggedProc.stdout.Writable
      ∧ (stdoutText (main gin.Default mux.NewRouter) ttyProc
            = stdoutText (main gin.Default mux.NewRouter) loggedProc
        ∧ (run (main gin.Default mux.NewRouter) ttyProc).1.stdout.Writable
        ∧ stdoutText (main gin.Default mux.NewRouter)
              (run (main gin.Default mux.NewRouter) ttyProc).1
            = stdoutText (main gin.Default mux.NewRouter) ttyProc) :=
  ⟨fun _ _ => rfl, fun _ _ => rfl,
    main_output_deterministic gin.Default gin.Default mux.NewRouter mux.NewRouter
      ttyProc loggedProc (fun _ _ => rfl) (fun _ _ => rfl)⟩

/-- C5 as stated fails: the import of `gin` makes its initialisation run before
`main`, and it reads GIN_MODE. Started with `GIN_MODE=bogus` the process panics
with status 2 and nothing on standard output; started with `GIN_MODE=release`,
on the same terminal, it writes the two lines and ends with status 0. -/
theorem environment_dependence_counterexample :
    (run (program (pure ()) gin.Default mux.NewRouter) bogusModeProc).2 = 2
      ∧ stdoutText (program (pure ()) gin.Default mux.NewRouter) bogusModeProc = []
      ∧ (run (program (pure ()) gin.Default mux.NewRouter) releaseModeProc).2 = 0
      ∧ stdoutText (program (pure ()) gin.Default mux.NewRouter) releaseModeProc
          = "hello from go test project\ngin and mux imported successfully\n".toList
      ∧ bogusModeProc.stdout.Writable ∧ releaseModeProc.stdout.Writable
      ∧ ¬ (stdoutText (program (pure ()) gin.Default mux.NewRouter) bogusModeProc
            = stdoutText (program (pure ()) gin.Default mux.NewRouter) releaseModeProc
          ∧ (run (program (pure ()) gin.Default mux.NewRouter) bogusModeProc).2
            = (run (program (pure ()) gin.Default mux.NewRouter) releaseModeProc).2) := by
  refine ⟨by decide, by decide, by decide, by decide, fun _ _ => rfl, fun _ _ => rfl, ?_⟩
  intro h
  exact absurd h.2 (by decide)

/-- C5, amended. `main` itself reads no arguments, no environment variables and
no files: from the moment `main` is entered, the text written to standard
output, the write calls and the exit status are the same for every two argument
lists, environments and sets of files. For the process as a whole the same holds
for every two argument lists, sets of files and environments in which start-up
completes and GIN_MODE is unset, empty, debug, release or test. -/
theorem process_independent_of_inputs (startup : Go Unit) (g : Go Engine) (m : Go Router)
    (s : Proc) (a a' : List String) (e e' : List (String × String))
    (fs fs' : List (String × String))
    (hst : startup { s with args := a, env := e, files := fs }
            = .returned () { s with args := a, env := e, files := fs })
    (hst' : startup { s with args := a', env := e', files := fs' }
            = .returned () { s with args := a', env := e', files := fs' })
    (hm : os.Getenv "GIN_MODE" { s with args := a, env := e, files := fs }
            ∈ ["", "debug", "release", "test"])
    (hm' : os.Getenv "GIN_MODE" { s with args := a', env := e', files := fs' }
            ∈ ["", "debug", "release", "test"]) :
    (stdoutText (main g m) { s with args := a, env := e, files := fs }
          = stdoutText (main g m) { s with args := a', env := e', files := fs' }
        ∧ stdoutWrites (main g m) { s with args := a, env := e, files := fs }
          = stdoutWrites (main g m) { s with args := a', env := e', files := fs' }
        ∧ (run (main g m) { s with args := a, env := e, files := fs }).2
          = (run (main g m) { s with args := a', env := e', files := fs' }).2)
      ∧ (stdoutText (program startup g m) { s with args := a, env := e, files := fs }
          = stdoutText (program startup g m) { s with args := a', env := e', files := fs' }
        ∧ stdoutWrites (program startup g m) { s with args := a, env := e, files := fs }
          = stdoutWrites (program startup g m) { s with args := a', env := e', files := fs' }
        ∧ (run (program startup g m) { s with args := a, env := e, files := fs }).2
          = (run (program startup g m) { s with args := a', env := e', files := fs' }).2) := by
  obtain ⟨v, hv⟩ := program_of_known startup g m _ hst hm
  obtain ⟨v', hv'⟩ := program_of_known startup g m _ hst' hm'
  have hr := run_congr _ _ _ _ hv
  have hr' := run_congr _ _ _ _ hv'
  refine ⟨main_depends_on_stdout_only g m _ _ rfl, ?_⟩
  have key := main_depends_on_stdout_only g m
    { s with args := a, env := e, files := fs, ginMode := v }
    { s with args := a', env := e', files := fs', ginMode := v' } rfl
  unfold stdoutText stdoutWrites at key ⊢
  rw [hr, hr']
  exact key

/-- Witness for the amended C5: a bare start against a start with other
arguments, files and `GIN_MODE=release`. -/
theorem process_independent_of_inputs_witness :
    ((pure () : Go Unit) { ttyProc with args := ["go-project"], env := [], files := [] }
        = .returned () { ttyProc with args := ["go-project"], env := [], files := [] })
      ∧ ((pure () : Go Unit)
          { ttyProc with args := ["go-project", "--port", "8080"],
                         env := [("HOME", "/root"), ("GIN_MODE", "release")],
                         files := [("config.yaml", "port: 8080")] }
        = .returned ()
          { ttyProc with args := ["go-project", "--port", "8080"],
                         env := [("HOME", "/root"), ("GIN_MODE", "release")],
                         files := [("config.yaml", "port: 8080")] })
      ∧ os.Getenv "GIN_MODE" { ttyProc with args := ["go-project"], env := [], files := [] }
          ∈ ["", "debug", "release", "test"]
      ∧ os.Getenv "GIN_MODE"
          { ttyProc with args := ["go-project", "--port", "8080"],
                         env := [("HOME", "/root"), ("GIN_MODE", "release")],
                         files := [("config.yaml", "port: 8080")] }
          ∈ ["", "debug", "release", "test"]
      ∧ ((stdoutText (main gin.Default mux.NewRouter)
              { ttyProc with args := ["go-project"], env := [], files := [] }
            = stdoutText (main gin.Default mux.NewRouter)
              { ttyProc with args := ["go-project", "--port", "8080"],
                             env := [("HOME", "/root"), ("GIN_MODE", "release")],
                             files := [("config.yaml", "port: 8080")] }
          ∧ stdoutWrites (main gin.Default mux.NewRouter)
              { ttyProc with args := ["go-project"], env := [], files := [] }
            = stdoutWrites (main gin.Default mux.NewRouter)
              { ttyProc with args := ["go-project", "--port", "8080"],
                             env := [("HOME", "/root"), ("GIN_MODE", "release")],
                             files := [("config.yaml", "port: 8080")] }
          ∧ (run (main gin.Default mux.NewRouter)
              { ttyProc with args := ["go-project"], env := [], files := [] }).2
            = (run (main gin.Default mux.NewRouter)
              { ttyProc with args := ["go-project", "--port", "8080"],
                             env := [("HOME", "/root"), ("GIN_MODE", "release")],
                             files := [("config.yaml", "port: 8080")] }).2)
        ∧ (stdoutText (program (pure ()) gin.Default mux.NewRouter)
              { ttyProc with args := ["go-project"], env := [], files := [] }
            = stdoutText (program (pure ()) gin.Default mux.NewRouter)
              { ttyProc with args := ["go-project", "--port", "8080"],
                             env := [("HOME", "/root"), ("GIN_MODE", "release")],
                             files := [("config.yaml", "port: 8080")] }
          ∧ stdoutWrites (program (pure ()) gin.Default mux.NewRouter)
              { ttyProc with args := ["go-project"], env := [], files := [] }
            = stdoutWrites (program (pure ()) gin.Default mux.NewRouter)
              { ttyProc with args := ["go-project", "--port", "8080"],
                             env := [("HOME", "/root"), ("GIN_MODE", "release")],
                             files := [("config.yaml", "port: 8080")] }
          ∧ (run (program (pure ()) gin.Default mux.NewRouter)
              { ttyProc with args := ["go-project"], env := [], files := [] }).2
            = (run (program (pure ()) gin.Default mux.NewRouter)
              { ttyProc with args := ["go-project", "--port", "8080"],
                             env := [("HOME", "/root"), ("GIN_MODE", "release")],
                             files := [("config.yaml", "port: 8080")] }).2)) :=
  ⟨rfl, rfl, by decide, by decide,
    process_independent_of_inputs (pure ()) gin.Default mux.NewRouter ttyProc
      ["go-project"] ["go-project", "--port", "8080"]
      [] [("HOME", "/root"), ("GIN_MODE", "release")]
      [] [("config.yaml", "port: 8080")] rfl rfl (by decide) (by decide)⟩

/-- C6. The only effects of `main` are its writes to standard output: the
function values `gin.Default` and `mux.NewRouter` are never called (the outcome
is the same whatever they would do), so `main` builds no engine and no router,
registers no route, opens no listener, and the final process state is the
initial one with `main`'s writes applied to standard output: both of them, or
the first alone when it met a closed pipe. -/
theorem main_only_writes_stdout (g g' : Go Engine) (m m' : Go Router) (s : Proc) :
    main g m s = main g' m' s
      ∧ (run (main g m) s).1 =
          { s with stdout :=
              if (s.stdout.behave s.stdout.log.length
                    "hello from go test project\n").returns = true
              then ((s.stdout.write "hello from go test project\n").1.write
                      "gin and mux imported successfully\n").1
              else (s.stdout.write "hello from go test project\n").1 }
      ∧ (stdoutWrites (main g m) s).map Prod.fst =
          (if (s.stdout.behave s.stdout.log.length
                  "hello from go test project\n").returns = true
            then ["hello from go test project\n", "gin and mux imported successfully\n"]
            else ["hello from go test project\n"])
      ∧ (run (main g m) s).1.engines = s.engines
      ∧ (run (main g m) s).1.routers = s.routers
      ∧ (run (main g m) s).1.routes = s.routes
      ∧ (run (main g m) s).1.listeners = s.listeners
      ∧ (run (main g m) s).1.ginMode = s.ginMode
      ∧ (run (main g m) s).1.stderr = s.stderr
      ∧ (run (main g m) s).1.args = s.args
      ∧ (run (main g m) s).1.env = s.env
      ∧ (run (main g m) s).1.files = s.files := by
  have hst := run_main_state g m s
  refine ⟨rfl, hst, ?_, ?_, ?_, ?_, ?_, ?_, ?_, ?_, ?_, ?_⟩
  · rw [stdoutWrites_main]
    by_cases h : (s.stdout.behave s.stdout.log.length "hello from go test project\n").returns = true
    · rw [if_pos h, if_pos h]; rfl
    · rw [if_neg h, if_neg h]; rfl
  all_goals rw [hst]

/-- C7 as stated fails: on a pipe whose reader is gone the first write of `main`
does not return (the process dies of SIGPIPE), the second write is never
attempted and `main` does not return, whereas on a terminal `main` makes both
writes and returns. -/
theorem write_outcomes_counterexample :
    stdoutWrites (main gin.Default mux.NewRouter) closedPipeProc
        = [("hello from go test project\n", .brokenPipe 0)]
      ∧ main gin.Default mux.NewRouter closedPipeProc = .killed SIGPIPE
          { closedPipeProc with
              stdout := (closedPipeProc.stdout.write "hello from go test project\n").1 }
      ∧ (∀ s', main gin.Default mux.NewRouter closedPipeProc ≠ .returned () s')
      ∧ (run (main gin.Default mux.NewRouter) closedPipeProc).2 = 141
      ∧ (stdoutWrites (main gin.Default mux.NewRouter) ttyProc).map Prod.fst
        = ["hello from go test project\n", "gin and mux imported successfully\n"]
      ∧ (∃ s', main gin.Default mux.NewRouter ttyProc = .returned () s')
      ∧ (run (main gin.Default mux.NewRouter) ttyProc).2 = 0 := by
  have hk := main_of_brokenPipe_first gin.Default mux.NewRouter closedPipeProc rfl
  refine ⟨by decide, hk, ?_, by decide, by decide, ⟨_, rfl⟩, by decide⟩
  intro s' h
  rw [hk] at h
  cases h

/-- C7, amended. `main` discards the result of each `fmt.Println` call that
returns: when no write of `main` meets a closed pipe, the second write
("gin and mux imported successfully") is attempted whether or not the first
write returned an error, and for every combination of returned write outcomes
`main` makes the same two calls in the same order and then returns normally. -/
theorem main_discards_write_results (g : Go Engine) (m : Go Router) (s : Proc)
    (hret : ∀ w ∈ stdoutWrites (main g m) s, w.2.returns = true) :
    stdoutWrites (main g m) s =
        [("hello from go test project\n",
            s.stdout.behave s.stdout.log.length "hello from go test project\n"),
         ("gin and mux imported successfully\n",
            s.stdout.behave (s.stdout.log.length + 1) "gin and mux imported successfully\n")]
      ∧ (∃ r₁ r₂ s₁ s₂,
          fmt.Println ["hello from go test project"] s = .returned r₁ s₁
            ∧ fmt.Println ["gin and mux imported successfully"] s₁ = .returned r₂ s₂
            ∧ main g m s = .returned () s₂)
      ∧ (run (main g m) s).2 = 0 := by
  have hW := stdoutWrites_main g m s
  have h1 : (s.stdout.behave s.stdout.log.length "hello from go test project\n").returns = true := by
    by_cases hr : (s.stdout.behave s.stdout.log.length "hello from go test project\n").returns = true
    · exact hr
    · rw [hW, if_neg hr] at hret
      exact hret (_, _) (List.mem_cons_self _ _)
  rw [hW, if_pos h1] at hret
  have h2 : (s.stdout.behave (s.stdout.log.length + 1)
      "gin and mux imported successfully\n").returns = true :=
    hret (_, _) (List.mem_cons_of_mem _ (List.mem_cons_self _ _))
  refine ⟨by rw [hW, if_pos h1], ?_, by rw [run_main_status]; simp [h1, h2]⟩
  obtain ⟨v1, e1⟩ := println_of_returns ["hello from go test project"] s h1
  obtain ⟨v2, e2⟩ := println_of_returns ["gin and mux imported successfully"]
    { s with stdout := (s.stdout.write (" ".intercalate ["hello from go test project"] ++ "\n")).1 }
    (by rw [← Stream.write_behave_next] at h2; exact h2)
  exact ⟨v1, v2, _, _, e1, e2, main_of_returns g m s h1 h2⟩

/-- Witness for the amended C7: a file that reaches its size limit in the second write. -/
theorem main_discards_write_results_witness :
    (∀ w ∈ stdoutWrites (main gin.Default mux.NewRouter) limitedFileProc, w.2.returns = true)
      ∧ (stdoutWrites (main gin.Default mux.NewRouter) limitedFileProc =
          [("hello from go test project\n",
              limitedFileProc.stdout.behave limitedFileProc.stdout.log.length
                "hello from go test project\n"),
           ("gin and mux imported successfully\n",
              limitedFileProc.stdout.behave (limitedFileProc.stdout.log.length + 1)
                "gin and mux imported successfully\n")]
        ∧ (∃ r₁ r₂ s₁ s₂,
            fmt.Println ["hello from go test project"] limitedFileProc = .returned r₁ s₁
              ∧ fmt.Println ["gin and mux imported successfully"] s₁ = .returned r₂ s₂
              ∧ main gin.Default mux.NewRouter limitedFileProc = .returned () s₂)
        ∧ (run (main gin.Default mux.NewRouter) limitedFileProc).2 = 0) :=
  ⟨by decide, main_discards_write_results gin.Default mux.NewRouter limitedFileProc (by decide)⟩

end GoProject
